import Mathlib

/-!
Shallow embedding of `src/investment_calculator.py` (class `InvestmentCalculator`).

Python floats are modelled as exact rationals (`ℚ`); Python `int` as `ℤ`.
A Python runtime error (`ZeroDivisionError` from `/`, `ValueError` from
`math.pow(0.0, negative)`) is modelled by `Except PyErr`: a function that can
raise returns `Except PyErr α`, a function whose divisions are all guarded by
the source returns a plain value.  `math.pow` is only ever applied to
integer-valued exponents in the source, except inside `calculate_cagr`, whose
non-degenerate branch is modelled with `Real.rpow`.
-/

/-- Runtime error kinds: `zeroDivision` models Python's `ZeroDivisionError`,
`invalidPow` models the `ValueError` of `math.pow(0.0, n)` for `n < 0`, and
`invalidInput` models the spec's `InvalidInput` condition (the source never
raises it; the constructor exists so that "signals InvalidInput" is statable). -/
inductive PyErr where
  | zeroDivision
  | invalidPow
  | invalidInput
deriving DecidableEq

/-- `math.pow` restricted to an integer exponent: raises `ValueError` on
`0.0 ** negative`, otherwise the exact rational power. -/
def pypow (x : ℚ) (n : ℤ) : Except PyErr ℚ :=
  if x = 0 ∧ n < 0 then .error .invalidPow else .ok (x ^ n)

/-- The module-level inflation constant `self.inflation_rate = 0.04`. -/
def inflation_rate : ℚ := 4 / 100

/-- The result dict of `compound_interest` (lines 47-55). -/
structure CompoundResult where
  future_value : ℚ
  total_invested : ℚ
  total_interest : ℚ
  real_value : ℚ
  return_percentage : ℚ
  annual_rate : ℚ
  years : ℤ
deriving DecidableEq

/-- `compound_interest` (lines 15-55): compound growth of the principal plus
the future value of the periodic contributions; the geometric annuity branch
is taken only when `monthly_contribution > 0 and rate_per_period > 0`,
otherwise the linear form `monthly_contribution * total_periods` is used. -/
def compound_interest (principal annual_rate : ℚ) (years : ℤ)
    (compounds_per_year : ℤ) (monthly_contribution : ℚ) :
    Except PyErr CompoundResult :=
  if compounds_per_year = 0 then .error .zeroDivision else
  let rate_per_period := annual_rate / compounds_per_year
  let total_periods := years * compounds_per_year
  (pypow (1 + rate_per_period) total_periods).bind fun growth =>
    let future_value_principal := principal * growth
    let future_value_contributions :=
      if 0 < monthly_contribution ∧ 0 < rate_per_period then
        monthly_contribution * ((growth - 1) / rate_per_period)
      else
        monthly_contribution * (total_periods : ℚ)
    let total_future_value := future_value_principal + future_value_contributions
    let total_invested := principal + monthly_contribution * (total_periods : ℚ)
    let total_interest := total_future_value - total_invested
    let real_value := total_future_value / (1 + inflation_rate) ^ years
    .ok { future_value := total_future_value
          total_invested := total_invested
          total_interest := total_interest
          real_value := real_value
          return_percentage :=
            if 0 < total_invested then total_interest / total_invested * 100 else 0
          annual_rate := annual_rate * 100
          years := years }

/-- The result dict of `calculate_annuity_payment` (lines 77-84). -/
structure AnnuityResult where
  monthly_payment : ℚ
  total_paid : ℚ
  total_interest : ℚ
  loan_amount : ℚ
  interest_percentage : ℚ
  years : ℤ
deriving DecidableEq

/-- `calculate_annuity_payment` (lines 57-84): amortized payment; the
`interest_percentage` field divides by `loan_amount` unguarded. -/
def calculate_annuity_payment (loan_amount annual_rate : ℚ) (years : ℤ)
    (payments_per_year : ℤ) : Except PyErr AnnuityResult :=
  if payments_per_year = 0 then .error .zeroDivision else
  let rate_per_period := annual_rate / payments_per_year
  let total_periods := years * payments_per_year
  (if rate_per_period = 0 then
      if (total_periods : ℚ) = 0 then .error .zeroDivision
      else .ok (loan_amount / (total_periods : ℚ))
    else
      (pypow (1 + rate_per_period) total_periods).bind fun p =>
        if p - 1 = 0 then .error .zeroDivision
        else .ok (loan_amount * (rate_per_period * p) / (p - 1))).bind fun payment =>
    let total_paid := payment * (total_periods : ℚ)
    let total_interest := total_paid - loan_amount
    if loan_amount = 0 then .error .zeroDivision
    else .ok { monthly_payment := payment
               total_paid := total_paid
               total_interest := total_interest
               loan_amount := loan_amount
               interest_percentage := total_interest / loan_amount * 100
               years := years }

/-- `calculate_required_capital` (lines 139-153): present value of an annuity
at a monthly rate; returns `monthly_income * total_months` when the monthly
rate is zero. -/
def calculate_required_capital (monthly_income : ℚ) (years : ℤ)
    (annual_return : ℚ) : Except PyErr ℚ :=
  let monthly_rate := annual_return / 12
  let total_months := years * 12
  if monthly_rate = 0 then .ok (monthly_income * (total_months : ℚ))
  else
    (pypow (1 + monthly_rate) (-total_months)).bind fun p =>
      .ok (monthly_income * ((1 - p) / monthly_rate))

/-- `calculate_required_monthly_contribution` (lines 155-180): future value of
current savings, then the payment needed to close the remaining gap; returns 0
when the gap is already covered. -/
def calculate_required_monthly_contribution (current_savings target_amount
    annual_return : ℚ) (years : ℤ) : Except PyErr ℚ :=
  let monthly_rate := annual_return / 12
  let total_months := years * 12
  (pypow (1 + monthly_rate) total_months).bind fun g =>
    let fv_current := current_savings * g
    let needed_from_contributions := target_amount - fv_current
    if needed_from_contributions ≤ 0 then .ok 0
    else if monthly_rate = 0 then
      if (total_months : ℚ) = 0 then .error .zeroDivision
      else .ok (needed_from_contributions / (total_months : ℚ))
    else
      if g - 1 = 0 then .error .zeroDivision
      else .ok (needed_from_contributions * monthly_rate / (g - 1))

/-- The result dict of `retirement_planning` (lines 125-137). -/
structure RetirementPlan where
  current_age : ℤ
  retirement_age : ℤ
  years_to_retirement : ℤ
  current_savings : ℚ
  monthly_contribution : ℚ
  projected_retirement_savings : ℚ
  required_capital : ℚ
  shortfall : ℚ
  required_monthly_contribution : ℚ
  desired_monthly_income : ℚ
  retirement_years : ℤ
deriving DecidableEq

/-- `retirement_planning` (lines 86-137): projects savings at retirement,
computes the required capital at 70% of the expected return over
`85 - retirement_age` years, clamps the reported shortfall at 0, and invokes
the contribution solver only when the unclamped gap is positive.  The source
performs no input validation. -/
def retirement_planning (current_age retirement_age : ℤ)
    (current_savings monthly_contribution expected_return
      desired_monthly_income : ℚ) : Except PyErr RetirementPlan :=
  let years_to_retirement := retirement_age - current_age
  (compound_interest current_savings expected_return years_to_retirement 12
      monthly_contribution).bind fun retirement_savings =>
    let retirement_years : ℤ := 85 - retirement_age
    (calculate_required_capital desired_monthly_income retirement_years
        (expected_return * (7 / 10))).bind fun required_capital =>
      let shortfall := required_capital - retirement_savings.future_value
      (if 0 < shortfall then
          calculate_required_monthly_contribution current_savings
            required_capital expected_return years_to_retirement
        else .ok monthly_contribution).bind fun required_monthly =>
        .ok { current_age := current_age
              retirement_age := retirement_age
              years_to_retirement := years_to_retirement
              current_savings := current_savings
              monthly_contribution := monthly_contribution
              projected_retirement_savings := retirement_savings.future_value
              required_capital := required_capital
              shortfall := if 0 < shortfall then shortfall else 0
              required_monthly_contribution := required_monthly
              desired_monthly_income := desired_monthly_income
              retirement_years := retirement_years }

/-- One entry of `yearly_data` in `dividend_reinvestment` (lines 201-205). -/
structure DivYear where
  year : ℤ
  value : ℚ
  dividends : ℚ
deriving DecidableEq

/-- The loop accumulators of `dividend_reinvestment` (lines 186-188). -/
structure DivState where
  current_value : ℚ
  total_dividends : ℚ
  yearly_data : List DivYear
deriving DecidableEq

/-- One iteration of the `dividend_reinvestment` loop body (lines 190-205), in
source order: dividends for the year, accumulate them, reinvest them into the
current value, then apply price appreciation, then record the step. -/
def divStep (dividend_yield price_appreciation : ℚ) (s : DivState)
    (year : ℤ) : DivState :=
  let dividends := s.current_value * dividend_yield
  let total_dividends := s.total_dividends + dividends
  let reinvested := s.current_value + dividends
  let current_value := reinvested * (1 + price_appreciation)
  { current_value := current_value
    total_dividends := total_dividends
    yearly_data := s.yearly_data ++
      [{ year := year, value := current_value, dividends := dividends }] }

/-- The loop `for year in range(1, years + 1)` of `dividend_reinvestment`,
as a fold of `divStep` over the year numbers `1 .. years`. -/
def divRun (dividend_yield price_appreciation : ℚ) (years : ℤ)
    (s : DivState) : DivState :=
  (List.range years.toNat).foldl
    (fun s i => divStep dividend_yield price_appreciation s ((i : ℤ) + 1)) s

/-- `calculate_cagr` (lines 219-226): returns 0 when `years = 0` or
`beginning_value = 0`; otherwise `((ending/beginning)^(1/years) - 1) * 100`,
a genuinely real-valued power, modelled with `Real.rpow`. -/
noncomputable def calculate_cagr (beginning_value ending_value : ℚ)
    (years : ℤ) : ℝ :=
  if years = 0 ∨ beginning_value = 0 then 0
  else (Real.rpow ((ending_value : ℝ) / (beginning_value : ℝ))
          (1 / (years : ℝ)) - 1) * 100

/-- The result dict of `dividend_reinvestment` (lines 209-217). -/
structure DividendResult where
  initial_investment : ℚ
  final_value : ℚ
  total_dividends : ℚ
  total_return : ℚ
  return_percentage : ℚ
  cagr : ℝ
  yearly_breakdown : List DivYear

/-- `dividend_reinvestment` (lines 182-217): runs the yearly loop, then builds
the result dict; `return_percentage` divides by `initial_investment` with no
guard, so `initial_investment = 0` raises `ZeroDivisionError`. -/
noncomputable def dividend_reinvestment (initial_investment dividend_yield : ℚ)
    (years : ℤ) (price_appreciation : ℚ) : Except PyErr DividendResult :=
  let s := divRun dividend_yield price_appreciation years
    { current_value := initial_investment, total_dividends := 0, yearly_data := [] }
  let total_return := s.current_value - initial_investment
  if initial_investment = 0 then .error .zeroDivision
  else .ok { initial_investment := initial_investment
             final_value := s.current_value
             total_dividends := s.total_dividends
             total_return := total_return
             return_percentage := total_return / initial_investment * 100
             cagr := calculate_cagr initial_investment s.current_value years
             yearly_breakdown := s.yearly_data }

/-- One entry of `monthly_data` in `dollar_cost_averaging` (lines 257-264). -/
structure DcaMonth where
  month : ℤ
  price : ℚ
  shares_bought : ℚ
  total_shares : ℚ
  invested : ℚ
  value : ℚ
deriving DecidableEq

/-- The loop accumulators of `dollar_cost_averaging` (lines 234-239). -/
structure DcaState where
  total_invested : ℚ
  total_shares : ℚ
  base_price : ℚ
  monthly_data : List DcaMonth
deriving DecidableEq

/-- One iteration of the `dollar_cost_averaging` loop body (lines 241-266):
the month's price change is the caller-supplied entry when the index is in
range and 0 otherwise, the month's price is `base_price * (1 + change/100)`,
shares are bought at that price (`ZeroDivisionError` when it is zero), and
`base_price` is updated to the month's resulting price. -/
def dcaStep (monthly_investment : ℚ) (price_volatility : List ℚ)
    (s : DcaState) (month : ℕ) : Except PyErr DcaState :=
  let price_change := price_volatility.getD month 0
  let current_price := s.base_price * (1 + price_change / 100)
  if current_price = 0 then .error .zeroDivision
  else
    let shares_bought := monthly_investment / current_price
    let total_shares := s.total_shares + shares_bought
    let total_invested := s.total_invested + monthly_investment
    let portfolio_value := total_shares * current_price
    .ok { total_invested := total_invested
          total_shares := total_shares
          base_price := current_price
          monthly_data := s.monthly_data ++
            [{ month := (month : ℤ) + 1
               price := current_price
               shares_bought := shares_bought
               total_shares := total_shares
               invested := total_invested
               value := portfolio_value }] }

/-- The loop `for month in range(months)` of `dollar_cost_averaging`, as a
monadic fold of `dcaStep` over the month indices `0 .. months - 1`. -/
def dcaRun (monthly_investment : ℚ) (price_volatility : List ℚ)
    (months : ℕ) (s : DcaState) : Except PyErr DcaState :=
  (List.range months).foldlM (dcaStep monthly_investment price_volatility) s

/-- The result dict of `dollar_cost_averaging` (lines 271-279). -/
structure DcaResult where
  total_invested : ℚ
  final_value : ℚ
  total_shares : ℚ
  average_price : ℚ
  total_return : ℚ
  return_percentage : ℚ
  monthly_breakdown : List DcaMonth
deriving DecidableEq

/-- `dollar_cost_averaging` (lines 228-279): runs the monthly loop starting
from `base_price = 100`, then builds the result dict; `average_price` and
`return_percentage` are guarded against zero denominators. -/
def dollar_cost_averaging (monthly_investment : ℚ) (years : ℤ)
    (price_volatility : List ℚ) : Except PyErr DcaResult :=
  (dcaRun monthly_investment price_volatility (years * 12).toNat
      { total_invested := 0, total_shares := 0, base_price := 100,
        monthly_data := [] }).bind fun s =>
    let final_value := s.total_shares * s.base_price
    let total_return := final_value - s.total_invested
    .ok { total_invested := s.total_invested
          final_value := final_value
          total_shares := s.total_shares
          average_price :=
            if 0 < s.total_shares then s.total_invested / s.total_shares else 0
          total_return := total_return
          return_percentage :=
            if 0 < s.total_invested then total_return / s.total_invested * 100 else 0
          monthly_breakdown := s.monthly_data }

/-- `rule_of_72` (lines 281-285): `none` models the `float('inf')` sentinel
returned when `annual_return = 0`; otherwise `72 / (annual_return * 100)`. -/
def rule_of_72 (annual_return : ℚ) : Option ℚ :=
  if annual_return = 0 then none else some (72 / (annual_return * 100))

/-- The result record `compound_interest` builds when no error is raised,
with the single `math.pow` value written out; used to state and invert the
success case of `compound_interest`. -/
def compoundSpec (principal annual_rate : ℚ) (years compounds_per_year : ℤ)
    (monthly_contribution : ℚ) : CompoundResult :=
  let rate_per_period := annual_rate / compounds_per_year
  let total_periods := years * compounds_per_year
  let growth := (1 + rate_per_period) ^ total_periods
  let future_value_contributions :=
    if 0 < monthly_contribution ∧ 0 < rate_per_period then
      monthly_contribution * ((growth - 1) / rate_per_period)
    else
      monthly_contribution * (total_periods : ℚ)
  let total_future_value := principal * growth + future_value_contributions
  let total_invested := principal + monthly_contribution * (total_periods : ℚ)
  let total_interest := total_future_value - total_invested
  { future_value := total_future_value
    total_invested := total_invested
    total_interest := total_interest
    real_value := total_future_value / (1 + inflation_rate) ^ years
    return_percentage :=
      if 0 < total_invested then total_interest / total_invested * 100 else 0
    annual_rate := annual_rate * 100
    years := years }

theorem compound_interest_ok (P ar : ℚ) (y cpy : ℤ) (C : ℚ)
    (hcpy : cpy ≠ 0) (hb : ¬(1 + ar / (cpy : ℚ) = 0 ∧ y * cpy < 0)) :
    compound_interest P ar y cpy C = .ok (compoundSpec P ar y cpy C) := by
  simp only [compound_interest, pypow]
  rw [if_neg hcpy, if_neg hb]
  rfl

theorem compound_interest_ok_inv {P ar : ℚ} {y cpy : ℤ} {C : ℚ}
    {r : CompoundResult} (h : compound_interest P ar y cpy C = .ok r) :
    r = compoundSpec P ar y cpy C := by
  simp only [compound_interest, pypow] at h
  split at h
  · exact absurd h (by simp)
  · split at h
    · simp [Except.bind] at h
    · simp only [Except.bind] at h
      cases h
      rfl

/-- C6: with `annual_rate = 0` the principal grows to exactly `P` and the
contributions to exactly `C * total_periods`, so the future value is
`P + C * n` exactly. -/
theorem compound_interest_zero_rate (P C : ℚ) (years compounds_per_year : ℤ)
    (h : compounds_per_year ≠ 0) :
    ∃ r, compound_interest P 0 years compounds_per_year C = .ok r ∧
      r.future_value = P + C * ((years * compounds_per_year : ℤ) : ℚ) := by
  refine ⟨_, compound_interest_ok P 0 years compounds_per_year C h (by simp), ?_⟩
  simp [compoundSpec]

theorem compound_interest_zero_rate_witness :
    ∃ r, compound_interest 100 0 2 12 5 = .ok r ∧ r.future_value = 220 := by
  obtain ⟨r, h1, h2⟩ := compound_interest_zero_rate 100 5 2 12 (by norm_num)
  exact ⟨r, h1, by rw [h2]; norm_num⟩

/-- C9: `calculate_cagr` returns 0 when `years = 0` or the beginning value is
0, and `rule_of_72` returns the infinite sentinel at `annual_return = 0` and
`72 / (annual_return * 100)` otherwise. -/
theorem cagr_rule72_degenerate :
    (∀ b e : ℚ, calculate_cagr b e 0 = 0) ∧
    (∀ (e : ℚ) (y : ℤ), calculate_cagr 0 e y = 0) ∧
    rule_of_72 0 = none ∧
    (∀ r : ℚ, r ≠ 0 → rule_of_72 r = some (72 / (r * 100))) := by
  refine ⟨fun b e => by simp [calculate_cagr],
    fun e y => by simp [calculate_cagr],
    by simp [rule_of_72],
    fun r hr => by simp [rule_of_72, hr]⟩

theorem cagr_rule72_degenerate_witness :
    rule_of_72 (9 / 100) = some (72 / (9 / 100 * 100)) :=
  cagr_rule72_degenerate.2.2.2 (9 / 100) (by norm_num)

/-- C10: with a negative annual rate and a positive contribution the
contributions component is the linear `C * total_periods`, never the geometric
annuity form; the geometric form is taken only when both the contribution and
the period rate are strictly positive. -/
theorem compound_interest_negative_rate_linear :
    (∀ (P ar C : ℚ) (y cpy : ℤ), ar < 0 → 0 < C → 1 ≤ cpy → 0 ≤ y →
      ∃ r, compound_interest P ar y cpy C = .ok r ∧
        r.future_value =
          P * (1 + ar / (cpy : ℚ)) ^ (y * cpy) + C * ((y * cpy : ℤ) : ℚ)) ∧
    (∀ (P ar C : ℚ) (y cpy : ℤ) (r : CompoundResult),
      ¬(0 < C ∧ 0 < ar / (cpy : ℚ)) → compound_interest P ar y cpy C = .ok r →
      r.future_value =
        P * (1 + ar / (cpy : ℚ)) ^ (y * cpy) + C * ((y * cpy : ℤ) : ℚ)) := by
  constructor
  · intro P ar C y cpy har hC hcpy hy
    have hcpy0 : cpy ≠ 0 := by omega
    have hn : ¬ y * cpy < 0 := by
      have := mul_nonneg hy (by omega : (0:ℤ) ≤ cpy)
      omega
    refine ⟨_, compound_interest_ok P ar y cpy C hcpy0 (by tauto), ?_⟩
    have hrpp : ar / (cpy : ℚ) < 0 := by
      apply div_neg_of_neg_of_pos har
      exact_mod_cast (by omega : (0:ℤ) < cpy)
    simp [compoundSpec, not_lt.mpr hrpp.le, hrpp.not_lt]
  · intro P ar C y cpy r hcond h
    rw [compound_interest_ok_inv h]
    simp only [compoundSpec, if_neg hcond]

theorem compound_interest_negative_rate_linear_witness :
    ∃ r, compound_interest 1000 (-12/100) 1 12 50 = .ok r ∧
      r.future_value =
        1000 * (1 + (-12/100) / ((12:ℤ) : ℚ)) ^ ((1:ℤ) * 12) +
          50 * (((1:ℤ) * 12 : ℤ) : ℚ) :=
  compound_interest_negative_rate_linear.1 1000 (-12/100) 50 1 12
    (by norm_num) (by norm_num) (by norm_num) (by norm_num)

theorem except_ok_bind {α β ε : Type} (a : α) (f : α → Except ε β) :
    (Except.ok a : Except ε α) >>= f = f a := rfl

theorem except_error_bind {α β ε : Type} (e : ε) (f : α → Except ε β) :
    (Except.error e : Except ε α) >>= f = Except.error e := rfl

theorem except_pure {α ε : Type} (a : α) :
    (pure a : Except ε α) = Except.ok a := rfl

/-- C2 (amended): the percentage fields that the source guards do return 0 on
a zero denominator — `compound_interest` and `dollar_cost_averaging` when
`total_invested = 0`, `calculate_cagr` when the beginning value is 0 — but
`dividend_reinvestment`'s return percentage is an unguarded division: with
`initial_investment = 0` it raises `ZeroDivisionError` instead of returning 0. -/
theorem degenerate_percentages :
    (∀ (P ar C : ℚ) (y cpy : ℤ) (r : CompoundResult),
      compound_interest P ar y cpy C = .ok r → r.total_invested = 0 →
      r.return_percentage = 0) ∧
    (∀ (mi : ℚ) (y : ℤ) (pv : List ℚ) (r : DcaResult),
      dollar_cost_averaging mi y pv = .ok r → r.total_invested = 0 →
      r.return_percentage = 0) ∧
    (∀ (e : ℚ) (y : ℤ), calculate_cagr 0 e y = 0) ∧
    (∀ (dy : ℚ) (y : ℤ) (pa : ℚ),
      dividend_reinvestment 0 dy y pa = .error .zeroDivision) := by
  refine ⟨?_, ?_, fun e y => by simp [calculate_cagr],
    fun dy y pa => by simp [dividend_reinvestment]⟩
  · intro P ar C y cpy r h h0
    rw [compound_interest_ok_inv h] at h0 ⊢
    simp only [compoundSpec] at h0 ⊢
    rw [if_neg]
    rw [h0]
    exact lt_irrefl 0
  · intro mi y pv r h h0
    simp only [dollar_cost_averaging] at h
    rcases hs : dcaRun mi pv (y * 12).toNat
        { total_invested := 0, total_shares := 0, base_price := 100,
          monthly_data := [] } with e | s
    · rw [hs] at h
      simp [Except.bind] at h
    · rw [hs] at h
      simp only [Except.bind] at h
      injection h with h
      subst h
      simp only at h0 ⊢
      rw [if_neg]
      rw [h0]
      exact lt_irrefl 0

theorem degenerate_percentages_witness :
    (compoundSpec 0 0 0 12 0).return_percentage = 0 :=
  degenerate_percentages.1 0 0 0 0 12 _
    (compound_interest_ok 0 0 0 12 0 (by norm_num) (by simp)) (by simp [compoundSpec])

/-- C2 (counterexample): at `initial_investment = 0`, `dividend_reinvestment`
does not return a result with the percentage field 0 — it raises
`ZeroDivisionError` from the unguarded `total_return / initial_investment`. -/
theorem dividend_zero_initial_cex :
    dividend_reinvestment 0 (5/100) 1 (7/100) = .error .zeroDivision := by
  simp [dividend_reinvestment]

/-- C4: each yearly dividend step computes the dividends from the current
value, accumulates them, reinvests them, and only then applies price
appreciation; with initial 1000, yield 0.05 and appreciation 0.07 the year-1
value is exactly `(1000 * 1.05) * 1.07`. -/
theorem dividend_step_order :
    (∀ (dy pa : ℚ) (s : DivState) (year : ℤ),
      divStep dy pa s year =
        { current_value := (s.current_value + s.current_value * dy) * (1 + pa)
          total_dividends := s.total_dividends + s.current_value * dy
          yearly_data := s.yearly_data ++
            [{ year := year
               value := (s.current_value + s.current_value * dy) * (1 + pa)
               dividends := s.current_value * dy }] }) ∧
    (dividend_reinvestment 1000 (5/100) 1 (7/100)).map
        (fun r => (r.final_value, r.yearly_breakdown)) =
      .ok (1000 * (105/100) * (107/100),
        [{ year := 1, value := 1000 * (105/100) * (107/100),
           dividends := 1000 * (5/100) }]) := by
  constructor
  · intro dy pa s year
    rfl
  · have h1 : List.range (1:ℤ).toNat = [0] := rfl
    simp only [dividend_reinvestment, divRun, h1, List.foldl_cons, List.foldl_nil]
    norm_num [divStep, Except.map]

/-- C5: each month's price is `base_price * (1 + change/100)` with the change
taken from the caller-supplied sequence when the index is in range and 0
otherwise, and `base_price` is updated to the month's resulting price, so each
percentage change applies to the previous month's resulting price; with
volatility `[10, -10]` the month-2 price is `110 * 0.9 = 99`, not `90`. -/
theorem dca_price_compounding :
    (∀ (mi : ℚ) (pv : List ℚ) (s : DcaState) (m : ℕ) (s' : DcaState),
      dcaStep mi pv s m = .ok s' →
      s'.base_price = s.base_price * (1 + pv.getD m 0 / 100) ∧
      s'.monthly_data.map DcaMonth.price =
        s.monthly_data.map DcaMonth.price ++
          [s.base_price * (1 + pv.getD m 0 / 100)]) ∧
    (dollar_cost_averaging 100 1 [10, -10]).map
        (fun r => (r.monthly_breakdown.map DcaMonth.price).take 2) =
      .ok [110, 99] := by
  constructor
  · intro mi pv s m s' h
    simp only [dcaStep] at h
    split at h
    · exact absurd h (by simp)
    · injection h with h
      subst h
      simp
  · have h12 : List.range ((1:ℤ) * 12).toNat = [0,1,2,3,4,5,6,7,8,9,10,11] := rfl
    simp only [dollar_cost_averaging, dcaRun, h12, List.foldlM]
    norm_num [dcaStep, except_ok_bind, except_error_bind, except_pure,
      Except.bind, Except.map, List.getD]

theorem dca_price_compounding_witness :
    (⟨100, 10/11, 110, [⟨1, 110, 10/11, 10/11, 100, 100⟩]⟩ : DcaState).base_price =
        (⟨0, 0, 100, []⟩ : DcaState).base_price *
          (1 + ([10, -10] : List ℚ).getD 0 0 / 100) ∧
      (⟨100, 10/11, 110, [⟨1, 110, 10/11, 10/11, 100, 100⟩]⟩ :
            DcaState).monthly_data.map DcaMonth.price =
        (⟨0, 0, 100, []⟩ : DcaState).monthly_data.map DcaMonth.price ++
          [(⟨0, 0, 100, []⟩ : DcaState).base_price *
            (1 + ([10, -10] : List ℚ).getD 0 0 / 100)] :=
  dca_price_compounding.1 100 [10, -10] ⟨0, 0, 100, []⟩ 0
    ⟨100, 10/11, 110, [⟨1, 110, 10/11, 10/11, 100, 100⟩]⟩ (by norm_num [dcaStep])

/-- C3: when projected savings exceed the required capital the reported
shortfall is exactly 0 and the required monthly contribution is the input
contribution unchanged; the reported shortfall is never negative; and the
decision to invoke the contribution solver is keyed off the unclamped signed
gap `required_capital - projected_savings`. -/
theorem retirement_shortfall_clamp :
    (∀ (ca ra : ℤ) (cs mc er dmi : ℚ) (rs : CompoundResult) (rc : ℚ),
      compound_interest cs er (ra - ca) 12 mc = .ok rs →
      calculate_required_capital dmi (85 - ra) (er * (7 / 10)) = .ok rc →
      rc < rs.future_value →
      retirement_planning ca ra cs mc er dmi = .ok
        { current_age := ca, retirement_age := ra, years_to_retirement := ra - ca,
          current_savings := cs, monthly_contribution := mc,
          projected_retirement_savings := rs.future_value, required_capital := rc,
          shortfall := 0, required_monthly_contribution := mc,
          desired_monthly_income := dmi, retirement_years := 85 - ra }) ∧
    (∀ (ca ra : ℤ) (cs mc er dmi : ℚ) (rs : CompoundResult) (rc : ℚ),
      compound_interest cs er (ra - ca) 12 mc = .ok rs →
      calculate_required_capital dmi (85 - ra) (er * (7 / 10)) = .ok rc →
      0 < rc - rs.future_value →
      retirement_planning ca ra cs mc er dmi =
        (calculate_required_monthly_contribution cs rc er (ra - ca)).map
          fun rm =>
            { current_age := ca, retirement_age := ra,
              years_to_retirement := ra - ca,
              current_savings := cs, monthly_contribution := mc,
              projected_retirement_savings := rs.future_value,
              required_capital := rc, shortfall := rc - rs.future_value,
              required_monthly_contribution := rm,
              desired_monthly_income := dmi, retirement_years := 85 - ra }) ∧
    (∀ (ca ra : ℤ) (cs mc er dmi : ℚ) (p : RetirementPlan),
      retirement_planning ca ra cs mc er dmi = .ok p → 0 ≤ p.shortfall) := by
  refine ⟨?_, ?_, ?_⟩
  · intro ca ra cs mc er dmi rs rc h1 h2 hlt
    have hno : ¬ 0 < rc - rs.future_value := by linarith
    simp only [retirement_planning]
    rw [h1]
    simp only [Except.bind]
    rw [h2]
    simp only [Except.bind]
    rw [if_neg hno, if_neg hno]
  · intro ca ra cs mc er dmi rs rc h1 h2 hpos
    simp only [retirement_planning]
    rw [h1]
    simp only [Except.bind]
    rw [h2]
    simp only [Except.bind]
    rw [if_pos hpos, if_pos hpos]
    rcases hm : calculate_required_monthly_contribution cs rc er (ra - ca)
      with e | rm
    · simp [Except.bind, Except.map]
    · simp [Except.bind, Except.map]
  · intro ca ra cs mc er dmi p h
    simp only [retirement_planning] at h
    rcases h1 : compound_interest cs er (ra - ca) 12 mc with e1 | rs
    · rw [h1] at h
      simp [Except.bind] at h
    · rw [h1] at h
      simp only [Except.bind] at h
      rcases h2 : calculate_required_capital dmi (85 - ra) (er * (7 / 10))
        with e2 | rc
      · rw [h2] at h
        simp [Except.bind] at h
      · rw [h2] at h
        simp only [Except.bind] at h
        rcases hm : (if 0 < rc - rs.future_value then
            calculate_required_monthly_contribution cs rc er (ra - ca)
          else .ok mc) with e3 | rm
        · rw [hm] at h
          simp [Except.bind] at h
        · rw [hm] at h
          simp only [Except.bind] at h
          injection h with h
          subst h
          dsimp only
          split
          · linarith
          · exact le_refl 0

theorem retirement_shortfall_clamp_witness :
    retirement_planning 30 31 1000 5 0 0 = .ok
      { current_age := 30, retirement_age := 31, years_to_retirement := 31 - 30,
        current_savings := 1000, monthly_contribution := 5,
        projected_retirement_savings := (compoundSpec 1000 0 (31 - 30) 12 5).future_value,
        required_capital := 0, shortfall := 0, required_monthly_contribution := 5,
        desired_monthly_income := 0, retirement_years := 85 - 31 } :=
  retirement_shortfall_clamp.1 30 31 1000 5 0 0 (compoundSpec 1000 0 (31 - 30) 12 5) 0
    (compound_interest_ok 1000 0 (31 - 30) 12 5 (by norm_num) (by norm_num))
    (by norm_num [calculate_required_capital])
    (by norm_num [compoundSpec])

theorem pypow_error {x : ℚ} {n : ℤ} {e : PyErr} (h : pypow x n = .error e) :
    e = .invalidPow := by
  simp only [pypow] at h
  split at h
  · injection h with h
    exact h.symm
  · exact absurd h (by simp)

theorem compound_interest_error {P ar : ℚ} {y cpy : ℤ} {C : ℚ} {e : PyErr}
    (h : compound_interest P ar y cpy C = .error e) :
    e = .zeroDivision ∨ e = .invalidPow := by
  simp only [compound_interest] at h
  split at h
  · injection h with h
    exact Or.inl h.symm
  · rcases hp : pypow (1 + ar / (cpy : ℚ)) (y * cpy) with e' | g
    · rw [hp] at h
      simp only [Except.bind] at h
      injection h with h
      subst h
      exact Or.inr (pypow_error hp)
    · rw [hp] at h
      simp [Except.bind] at h

theorem required_capital_error {mi : ℚ} {y : ℤ} {ar : ℚ} {e : PyErr}
    (h : calculate_required_capital mi y ar = .error e) : e = .invalidPow := by
  simp only [calculate_required_capital] at h
  split at h
  · exact absurd h (by simp)
  · rcases hp : pypow (1 + ar / 12) (-(y * 12)) with e' | g
    · rw [hp] at h
      simp only [Except.bind] at h
      injection h with h
      subst h
      exact pypow_error hp
    · rw [hp] at h
      simp [Except.bind] at h

theorem required_monthly_error {cs ta ar : ℚ} {y : ℤ} {e : PyErr}
    (h : calculate_required_monthly_contribution cs ta ar y = .error e) :
    e = .zeroDivision ∨ e = .invalidPow := by
  simp only [calculate_required_monthly_contribution] at h
  rcases hp : pypow (1 + ar / 12) (y * 12) with e' | g
  · rw [hp] at h
    simp only [Except.bind] at h
    injection h with h
    subst h
    exact Or.inr (pypow_error hp)
  · rw [hp] at h
    simp only [Except.bind] at h
    split at h
    · exact absurd h (by simp)
    · split at h
      · split at h
        · injection h with h
          exact Or.inl h.symm
        · exact absurd h (by simp)
      · split at h
        · injection h with h
          exact Or.inl h.symm
        · exact absurd h (by simp)

/-- C1 (amended): `retirement_planning` performs no input validation and never
signals `InvalidInput`: every error it can propagate is an arithmetic
`ZeroDivisionError` or `math.pow` `ValueError` from the underlying formulas,
and for `retirement_age ≤ current_age` it can return a fully computed plan. -/
theorem retirement_planning_error_kinds :
    ∀ (ca ra : ℤ) (cs mc er dmi : ℚ) (e : PyErr),
      retirement_planning ca ra cs mc er dmi = .error e →
      e = .zeroDivision ∨ e = .invalidPow := by
  intro ca ra cs mc er dmi e h
  simp only [retirement_planning] at h
  rcases h1 : compound_interest cs er (ra - ca) 12 mc with e1 | rs
  · rw [h1] at h
    simp only [Except.bind] at h
    injection h with h
    subst h
    exact compound_interest_error h1
  · rw [h1] at h
    simp only [Except.bind] at h
    rcases h2 : calculate_required_capital dmi (85 - ra) (er * (7 / 10))
      with e2 | rc
    · rw [h2] at h
      simp only [Except.bind] at h
      injection h with h
      subst h
      exact Or.inr (required_capital_error h2)
    · rw [h2] at h
      simp only [Except.bind] at h
      rcases hm : (if 0 < rc - rs.future_value then
          calculate_required_monthly_contribution cs rc er (ra - ca)
        else .ok mc) with e3 | rm
      · rw [hm] at h
        simp only [Except.bind] at h
        injection h with h
        subst h
        split at hm
        · exact required_monthly_error hm
        · exact absurd hm (by simp)
      · rw [hm] at h
        simp [Except.bind] at h

theorem retirement_planning_error_kinds_witness :
    PyErr.zeroDivision = PyErr.zeroDivision ∨
      PyErr.zeroDivision = PyErr.invalidPow :=
  retirement_planning_error_kinds 30 30 0 0 0 1 PyErr.zeroDivision
    (by norm_num [retirement_planning, compound_interest,
      calculate_required_capital, calculate_required_monthly_contribution,
      pypow, Except.bind])

/-- C1 (counterexample): with `retirement_age = 50 ≤ current_age = 60` (and
so `retirement_years = 35 ≥ 0` but `years_to_retirement = -10 < 0`) the
planner does not signal `InvalidInput`: it returns a fully computed plan. -/
theorem retirement_planning_no_validation_cex :
    (50 : ℤ) ≤ 60 ∧
    retirement_planning 60 50 0 0 0 0 = .ok
      { current_age := 60, retirement_age := 50, years_to_retirement := -10,
        current_savings := 0, monthly_contribution := 0,
        projected_retirement_savings := 0, required_capital := 0, shortfall := 0,
        required_monthly_contribution := 0, desired_monthly_income := 0,
        retirement_years := 35 } := by
  refine ⟨by norm_num, ?_⟩
  norm_num [retirement_planning, compound_interest, pypow,
    calculate_required_capital, Except.bind]

theorem annuity_payment_ok (L r : ℚ) (Y ppy : ℤ) (hppy : ¬ ppy = 0)
    (hρ : ¬ r / (ppy : ℚ) = 0)
    (hx : ¬(1 + r / (ppy : ℚ) = 0 ∧ Y * ppy < 0))
    (hxn : ¬((1 + r / (ppy : ℚ)) ^ (Y * ppy) - 1 = 0)) (hL : ¬ L = 0) :
    calculate_annuity_payment L r Y ppy = .ok
      { monthly_payment := L * (r / (ppy : ℚ) * (1 + r / (ppy : ℚ)) ^ (Y * ppy)) /
          ((1 + r / (ppy : ℚ)) ^ (Y * ppy) - 1)
        total_paid := L * (r / (ppy : ℚ) * (1 + r / (ppy : ℚ)) ^ (Y * ppy)) /
          ((1 + r / (ppy : ℚ)) ^ (Y * ppy) - 1) * ((Y * ppy : ℤ) : ℚ)
        total_interest := L * (r / (ppy : ℚ) * (1 + r / (ppy : ℚ)) ^ (Y * ppy)) /
          ((1 + r / (ppy : ℚ)) ^ (Y * ppy) - 1) * ((Y * ppy : ℤ) : ℚ) - L
        loan_amount := L
        interest_percentage :=
          (L * (r / (ppy : ℚ) * (1 + r / (ppy : ℚ)) ^ (Y * ppy)) /
            ((1 + r / (ppy : ℚ)) ^ (Y * ppy) - 1) * ((Y * ppy : ℤ) : ℚ) - L) /
            L * 100
        years := Y } := by
  simp only [calculate_annuity_payment, pypow]
  rw [if_neg hppy, if_neg hρ, if_neg hx]
  simp only [Except.bind]
  rw [if_neg hxn]
  simp only [Except.bind]
  rw [if_neg hL]

theorem required_capital_ok (mi : ℚ) (Y : ℤ) (ar : ℚ)
    (hmr : ¬ ar / 12 = 0) (hx : ¬(1 + ar / 12 = 0 ∧ -(Y * 12) < 0)) :
    calculate_required_capital mi Y ar = .ok
      (mi * ((1 - (1 + ar / 12) ^ (-(Y * 12))) / (ar / 12))) := by
  simp only [calculate_required_capital, pypow]
  rw [if_neg hmr, if_neg hx]
  simp only [Except.bind]

/-- C7: over the spec's loan-parameter domain (`L > 0`, rate > 0, years ≥ 1,
payments per year ≥ 1), the amortization identity
`total_interest = payment * total_periods - L` holds, and the annuity payment
of the present value of an annuity with the same monthly rate and period
count is exactly the periodic amount (hence within the 1e-6 tolerance). -/
theorem annuity_roundtrip :
    (∀ (L r : ℚ) (Y ppy : ℤ), 0 < L → 0 < r → 1 ≤ Y → 1 ≤ ppy →
      ∃ res, calculate_annuity_payment L r Y ppy = .ok res ∧
        res.total_interest = res.monthly_payment * ((Y * ppy : ℤ) : ℚ) - L) ∧
    (∀ (pmt r : ℚ) (Y : ℤ), 0 < pmt → 0 < r → 1 ≤ Y →
      ∃ cap res, calculate_required_capital pmt Y r = .ok cap ∧
        calculate_annuity_payment cap r Y 12 = .ok res ∧
        res.monthly_payment = pmt ∧
        |res.monthly_payment - pmt| ≤ 1 / 1000000) := by
  constructor
  · intro L r Y ppy hL hr hY hppy
    have hppyQ : (0:ℚ) < (ppy : ℚ) := by
      exact_mod_cast (show (0:ℤ) < ppy by omega)
    have hρ : 0 < r / (ppy : ℚ) := div_pos hr hppyQ
    have hx1 : 1 < 1 + r / (ppy : ℚ) := by linarith
    have hn : (0:ℤ) < Y * ppy := mul_pos (by omega) (by omega)
    have hA1 : 1 < (1 + r / (ppy : ℚ)) ^ (Y * ppy) := one_lt_zpow₀ hx1 hn
    exact ⟨_, annuity_payment_ok L r Y ppy (by omega) (ne_of_gt hρ)
      (by rintro ⟨h0, _⟩; linarith) (sub_ne_zero.mpr (ne_of_gt hA1))
      (ne_of_gt hL), rfl⟩
  · intro pmt r Y hpmt hr hY
    have hρ : 0 < r / 12 := div_pos hr (by norm_num)
    have hρne : r / 12 ≠ 0 := ne_of_gt hρ
    have hx1 : 1 < 1 + r / 12 := by linarith
    have hxpos : (0:ℚ) < 1 + r / 12 := by linarith
    have hn : (0:ℤ) < Y * 12 := by omega
    have hA1 : 1 < (1 + r / 12) ^ (Y * 12) := one_lt_zpow₀ hx1 hn
    have hA0 : (0:ℚ) < (1 + r / 12) ^ (Y * 12) := zpow_pos hxpos _
    have hA0ne : (1 + r / 12) ^ (Y * 12) ≠ 0 := ne_of_gt hA0
    have hAne : (1 + r / 12) ^ (Y * 12) - 1 ≠ 0 :=
      sub_ne_zero.mpr (ne_of_gt hA1)
    have hinv : (1 + r / 12) ^ (-(Y * 12)) < 1 := by
      rw [zpow_neg]
      exact inv_lt_one_of_one_lt₀ hA1
    have hgap : 0 < 1 - (1 + r / 12) ^ (-(Y * 12)) := by linarith
    have hcappos : 0 < pmt * ((1 - (1 + r / 12) ^ (-(Y * 12))) / (r / 12)) :=
      mul_pos hpmt (div_pos hgap hρ)
    have hcap := required_capital_ok pmt Y r hρne (by rintro ⟨h0, _⟩; linarith)
    have hc : ((12:ℤ) : ℚ) = 12 := by norm_num
    have hρ' : ¬ r / ((12:ℤ) : ℚ) = 0 := by rw [hc]; exact hρne
    have hx0' : ¬(1 + r / ((12:ℤ) : ℚ) = 0 ∧ Y * 12 < 0) := by
      rw [hc]
      rintro ⟨h0, _⟩
      linarith
    have hxn' : ¬((1 + r / ((12:ℤ) : ℚ)) ^ (Y * 12) - 1 = 0) := by
      rw [hc]
      exact hAne
    have hann := annuity_payment_ok
      (pmt * ((1 - (1 + r / 12) ^ (-(Y * 12))) / (r / 12))) r Y 12
      (by norm_num) hρ' hx0' hxn' (ne_of_gt hcappos)
    have hpay : pmt * ((1 - (1 + r / 12) ^ (-(Y * 12))) / (r / 12)) *
        (r / ((12:ℤ) : ℚ) * (1 + r / ((12:ℤ) : ℚ)) ^ (Y * 12)) /
        ((1 + r / ((12:ℤ) : ℚ)) ^ (Y * 12) - 1) = pmt := by
      rw [hc, zpow_neg]
      generalize hA : (1 + r / 12) ^ (Y * 12) = A at hA0ne hAne ⊢
      field_simp
      ring
    refine ⟨_, _, hcap, hann, hpay, ?_⟩
    rw [show (pmt * ((1 - (1 + r / 12) ^ (-(Y * 12))) / (r / 12)) *
        (r / ((12:ℤ) : ℚ) * (1 + r / ((12:ℤ) : ℚ)) ^ (Y * 12)) /
        ((1 + r / ((12:ℤ) : ℚ)) ^ (Y * 12) - 1) : ℚ) = pmt from hpay]
    simp

theorem annuity_roundtrip_witness :
    ∃ cap res, calculate_required_capital 1 1 12 = .ok cap ∧
      calculate_annuity_payment cap 12 1 12 = .ok res ∧
      res.monthly_payment = 1 ∧
      |res.monthly_payment - 1| ≤ 1 / 1000000 :=
  annuity_roundtrip.2 1 12 1 (by norm_num) (by norm_num) (by norm_num)

/-- C8 (counterexample): with principal 0 and contribution 0 the future value
is 0 at every rate, so raising the rate from 0.1 to 0.2 does not strictly
increase it — strict monotonicity fails on degenerate fixed parameters. -/
theorem compound_interest_monotone_cex :
    (1:ℚ)/10 < 2/10 ∧
    (compound_interest 0 (1/10) 1 12 0).map CompoundResult.future_value = .ok 0 ∧
    (compound_interest 0 (2/10) 1 12 0).map CompoundResult.future_value = .ok 0 := by
  refine ⟨by norm_num, ?_, ?_⟩ <;>
    norm_num [compound_interest, pypow, Except.bind, Except.map]

/-- C8 (amended): with a positive principal, a nonnegative contribution, at
least one year and at least one compounding period per year, the future value
returned by `compound_interest` is strictly increasing in the annual rate
over rates > 0. -/
theorem compound_interest_monotone_amended :
    ∀ (P C r1 r2 : ℚ) (y cpy : ℤ), 0 < P → 0 ≤ C → 1 ≤ y → 1 ≤ cpy →
      0 < r1 → r1 < r2 →
      compound_interest P r1 y cpy C = .ok (compoundSpec P r1 y cpy C) ∧
      compound_interest P r2 y cpy C = .ok (compoundSpec P r2 y cpy C) ∧
      (compoundSpec P r1 y cpy C).future_value <
        (compoundSpec P r2 y cpy C).future_value := by
  intro P C r1 r2 y cpy hP hC hy hcpy hr1 hr12
  have hcpyQ : (0:ℚ) < (cpy : ℚ) := by
    exact_mod_cast (show (0:ℤ) < cpy by omega)
  have hn : (0:ℤ) < y * cpy := mul_pos (by omega) (by omega)
  have hb : ∀ r : ℚ, ¬(1 + r / (cpy : ℚ) = 0 ∧ y * cpy < 0) := by
    rintro r ⟨_, hlt⟩
    omega
  have hρ1 : 0 < r1 / (cpy : ℚ) := div_pos hr1 hcpyQ
  have hρ2 : 0 < r2 / (cpy : ℚ) := div_pos (lt_trans hr1 hr12) hcpyQ
  have hρ12 : r1 / (cpy : ℚ) < r2 / (cpy : ℚ) := by gcongr
  refine ⟨compound_interest_ok P r1 y cpy C (by omega) (hb r1),
    compound_interest_ok P r2 y cpy C (by omega) (hb r2), ?_⟩
  have hNn : ((y * cpy).toNat : ℤ) = y * cpy := Int.toNat_of_nonneg hn.le
  have hN0 : (y * cpy).toNat ≠ 0 := by omega
  have hz : ∀ r : ℚ, (1 + r / (cpy : ℚ)) ^ (y * cpy) =
      (1 + r / (cpy : ℚ)) ^ (y * cpy).toNat := by
    intro r
    conv_lhs => rw [← hNn]
    rw [zpow_natCast]
  have hx1pos : (0:ℚ) ≤ 1 + r1 / (cpy : ℚ) := by linarith
  have hx12 : 1 + r1 / (cpy : ℚ) < 1 + r2 / (cpy : ℚ) := by linarith
  have hpow : (1 + r1 / (cpy : ℚ)) ^ (y * cpy) <
      (1 + r2 / (cpy : ℚ)) ^ (y * cpy) := by
    rw [hz r1, hz r2]
    exact pow_lt_pow_left₀ hx12 hx1pos hN0
  have hPmul : P * (1 + r1 / (cpy : ℚ)) ^ (y * cpy) <
      P * (1 + r2 / (cpy : ℚ)) ^ (y * cpy) := mul_lt_mul_of_pos_left hpow hP
  have key : ∀ r : ℚ, 0 < r / (cpy : ℚ) →
      ((1 + r / (cpy : ℚ)) ^ (y * cpy) - 1) / (r / (cpy : ℚ)) =
        ∑ i ∈ Finset.range (y * cpy).toNat, (1 + r / (cpy : ℚ)) ^ i := by
    intro r hρ
    have hne : (1 + r / (cpy : ℚ)) ≠ 1 := by
      intro h
      have : r / (cpy : ℚ) = 0 := by linarith
      linarith
    rw [hz r, geom_sum_eq hne, add_sub_cancel_left]
  simp only [compoundSpec]
  rcases hC.lt_or_eq with hCpos | hC0
  · rw [if_pos ⟨hCpos, hρ1⟩, if_pos ⟨hCpos, hρ2⟩, key r1 hρ1, key r2 hρ2]
    refine add_lt_add_of_lt_of_le hPmul (mul_le_mul_of_nonneg_left ?_ hC)
    refine Finset.sum_le_sum fun i _ => ?_
    exact pow_le_pow_left₀ hx1pos (le_of_lt hx12) i
  · rw [if_neg (by rw [← hC0]; rintro ⟨h, _⟩; exact lt_irrefl 0 h),
      if_neg (by rw [← hC0]; rintro ⟨h, _⟩; exact lt_irrefl 0 h)]
    exact add_lt_add_of_lt_of_le hPmul (le_refl _)

theorem compound_interest_monotone_amended_witness :
    compound_interest 1 1 1 1 0 = .ok (compoundSpec 1 1 1 1 0) ∧
    compound_interest 1 2 1 1 0 = .ok (compoundSpec 1 2 1 1 0) ∧
    (compoundSpec 1 1 1 1 0).future_value <
      (compoundSpec 1 2 1 1 0).future_value :=
  compound_interest_monotone_amended 1 0 1 2 1 1 (by norm_num) (by norm_num)
    (by norm_num) (by norm_num) (by norm_num) (by norm_num)
